import Mathlib

set_option maxHeartbeats 1000000

/-!
Shallow embedding of the BrainDrive PluginTemplate repository.

The repository is a plugin scaffold: a main class component
(src/src/PluginTemplate.tsx), a settings form component (SettingsExample),
development mock services, and a layered error handling utility
(src/utils/errorHandling.ts, imported by PluginTemplate.tsx but not present
under src/, hence modelled from the spec where needed).

Conventions of the embedding:
- asynchronous operations are deterministic attempt-indexed functions
  Nat -> Except PluginError A, so that re-invocation (retry) is observable;
- the JavaScript event loop is single threaded, so each handler runs to
  completion atomically; component lifecycle is a step relation on an
  explicit component model;
- JavaScript values relevant to the settings code are embedded as JsVal
  with JavaScript truthiness (undefined is folded into null).
-/

/-- Modelled from the spec: src/utils/errorHandling.ts is missing from src/.
Spec section 4.1 enumerates the recovery strategies: RETRY, FALLBACK, IGNORE,
ESCALATE, USER_ACTION. -/
inductive ErrorStrategy where
  | retry
  | fallback
  | ignore
  | escalate
  | userAction
  deriving DecidableEq, Repr

/-- Modelled from the spec: base error value of the taxonomy in
src/utils/errorHandling.ts (missing from src/): a message plus a code.
Details, recoverable flag and timestamp carry no logic and are omitted. -/
structure PluginError where
  message : String
  code : String
  deriving DecidableEq, Repr

/-- Modelled from the spec: ServiceError subtype (service name + code). -/
structure ServiceError where
  message : String
  service : String
  code : String
  deriving DecidableEq, Repr

/-- Modelled from the spec: ValidationError subtype (field + violation
message). -/
structure ValidationError where
  field : String
  message : String
  deriving DecidableEq, Repr

/-- Modelled from the spec: per-instance configuration of ErrorHandler;
maxRetries caps RETRY attempts, retryDelay is the delay in milliseconds
between attempts (scheduling only, no functional effect). -/
structure ErrorHandlerConfig where
  maxRetries : Nat
  retryDelay : Nat
  deriving DecidableEq, Repr

/-- Modelled from the spec: the mutable telemetry of an ErrorHandler
instance, a running count of encountered failures per code. -/
structure HandlerState where
  errorCounts : List (String × Nat)
  deriving DecidableEq, Repr

def emptyHandlerState : HandlerState := { errorCounts := [] }

/-- Increment the count stored under a code in an association list,
inserting the code with count 1 when absent. -/
def incrCount : List (String × Nat) → String → List (String × Nat)
  | [], c => [(c, 1)]
  | (k, n) :: rest, c =>
    if k = c then (k, n + 1) :: rest else (k, n) :: incrCount rest c

/-- Modelled from the spec: every caught failure is recorded in the
per-code statistics. -/
def recordError (st : HandlerState) (code : String) : HandlerState :=
  { errorCounts := incrCount st.errorCounts code }

/-- Modelled from the spec: getErrorStats exposes the running failure
counts for inspection. -/
def getErrorStats (st : HandlerState) : List (String × Nat) :=
  st.errorCounts

/-- Modelled from the spec: resetErrorCounts clears the statistics on
demand. -/
def resetErrorCounts (_st : HandlerState) : HandlerState :=
  emptyHandlerState

/-- Modelled from the spec: the RETRY loop of safeAsync. It invokes the
operation; on failure it records the error and, while retries remain,
re-invokes the operation (after retryDelay milliseconds, which the
embedding does not observe). Returns the final result, the number of
invocations performed, and the updated statistics. -/
def retryOperation (op : Nat → Except PluginError α) (attempt : Nat)
    (retriesLeft : Nat) (st : HandlerState) :
    Except PluginError α × Nat × HandlerState :=
  match op attempt with
  | Except.ok a => (Except.ok a, 1, st)
  | Except.error e =>
    let st1 := recordError st e.code
    match retriesLeft with
    | 0 => (Except.error e, 1, st1)
    | Nat.succ n =>
      let r := retryOperation op (attempt + 1) n st1
      (r.1, r.2.1 + 1, r.2.2)

/-- Modelled from the spec: safeAsync runs the operation and on failure
applies the selected strategy. RETRY re-invokes up to maxRetries times
and, once exhausted, surfaces the error to the caller unless a fallback
was supplied; FALLBACK substitutes the caller-supplied default and
suppresses the error; IGNORE swallows and returns undefined (none);
ESCALATE rethrows after recording; USER_ACTION surfaces to the caller.
Returns the result, the number of invocations of the operation, and the
updated handler statistics. -/
def safeAsync (cfg : ErrorHandlerConfig) (st : HandlerState)
    (op : Nat → Except PluginError α) (fb : Option α)
    (strategy : ErrorStrategy) :
    Except PluginError (Option α) × Nat × HandlerState :=
  match strategy with
  | ErrorStrategy.retry =>
    let r := retryOperation op 0 cfg.maxRetries st
    match r.1 with
    | Except.ok a => (Except.ok (some a), r.2.1, r.2.2)
    | Except.error e =>
      match fb with
      | some v => (Except.ok (some v), r.2.1, r.2.2)
      | none => (Except.error e, r.2.1, r.2.2)
  | ErrorStrategy.fallback =>
    match op 0 with
    | Except.ok a => (Except.ok (some a), 1, st)
    | Except.error e => (Except.ok fb, 1, recordError st e.code)
  | ErrorStrategy.ignore =>
    match op 0 with
    | Except.ok a => (Except.ok (some a), 1, st)
    | Except.error e => (Except.ok none, 1, recordError st e.code)
  | ErrorStrategy.escalate =>
    match op 0 with
    | Except.ok a => (Except.ok (some a), 1, st)
    | Except.error e => (Except.error e, 1, recordError st e.code)
  | ErrorStrategy.userAction =>
    match op 0 with
    | Except.ok a => (Except.ok (some a), 1, st)
    | Except.error e => (Except.error e, 1, recordError st e.code)

/-- Modelled from the spec: validate runs an ordered list of rules, each
returning true (here none) or a violation string (here some msg); on the
first violation it raises a ValidationError carrying the field name and
that message. -/
def validate (value : α) (rules : List (α → Option String))
    (fieldName : String) : Except ValidationError α :=
  match rules with
  | [] => Except.ok value
  | r :: rest =>
    match r value with
    | some msg => Except.error { field := fieldName, message := msg }
    | none => validate value rest fieldName

/-- The retry loop performs at most retriesLeft + 1 invocations. -/
theorem retryOperation_count_le (op : Nat → Except PluginError α)
    (attempt retriesLeft : Nat) (st : HandlerState) :
    (retryOperation op attempt retriesLeft st).2.1 ≤ retriesLeft + 1 := by
  induction retriesLeft generalizing attempt st with
  | zero =>
    unfold retryOperation
    cases op attempt <;> simp
  | succ n ih =>
    unfold retryOperation
    cases op attempt with
    | ok a => simp
    | error e =>
      simp only
      have h := ih (attempt + 1) (recordError st e.code)
      omega

/-- If every attempt fails, the retry loop ends in an error. -/
theorem retryOperation_all_fail (op : Nat → Except PluginError α)
    (attempt retriesLeft : Nat) (st : HandlerState)
    (h : ∀ i, ∃ e, op i = Except.error e) :
    ∃ e, (retryOperation op attempt retriesLeft st).1 = Except.error e := by
  induction retriesLeft generalizing attempt st with
  | zero =>
    obtain ⟨e, he⟩ := h attempt
    refine ⟨e, ?_⟩
    unfold retryOperation
    rw [he]
  | succ n ih =>
    obtain ⟨e, he⟩ := h attempt
    obtain ⟨e2, he2⟩ := ih (attempt + 1) (recordError st e.code)
    refine ⟨e2, ?_⟩
    unfold retryOperation
    rw [he]
    simpa using he2

/-- C1: for every operation wrapped by safeAsync with strategy RETRY under a
handler configured with maxRetries = N, the operation is invoked at most
N + 1 times in total (the initial attempt plus at most N retries); and when
no fallback is supplied and every attempt fails, the error is surfaced
(thrown) to the caller. -/
theorem safeAsync_retry_invocation_bound (cfg : ErrorHandlerConfig)
    (st : HandlerState) (op : Nat → Except PluginError α) (fb : Option α) :
    (safeAsync cfg st op fb ErrorStrategy.retry).2.1 ≤ cfg.maxRetries + 1 ∧
    ((∀ i, ∃ e, op i = Except.error e) →
      ∃ e, (safeAsync cfg st op none ErrorStrategy.retry).1 =
        Except.error e) := by
  constructor
  · unfold safeAsync
    have h := retryOperation_count_le op 0 cfg.maxRetries st
    cases hr : (retryOperation op 0 cfg.maxRetries st).1 with
    | ok a =>
      simp only [hr]
      simpa [hr] using h
    | error e =>
      cases fb <;> simp only [hr] <;> simpa [hr] using h
  · intro hall
    obtain ⟨e, he⟩ := retryOperation_all_fail op 0 cfg.maxRetries st hall
    refine ⟨e, ?_⟩
    unfold safeAsync
    dsimp only
    rw [he]

/-- An operation that always fails, used to instantiate C1 concretely. -/
def alwaysFailOp : Nat → Except PluginError Nat :=
  fun _ => Except.error { message := "boom", code := "TEST_ERROR" }

/-- Witness for C1 at a concrete handler configuration and operation. -/
theorem safeAsync_retry_invocation_bound_witness :
    (safeAsync { maxRetries := 3, retryDelay := 1000 } emptyHandlerState
        alwaysFailOp none ErrorStrategy.retry).2.1 ≤ 3 + 1 ∧
    ∃ e, (safeAsync { maxRetries := 3, retryDelay := 1000 } emptyHandlerState
        alwaysFailOp none ErrorStrategy.retry).1 = Except.error e :=
  ⟨(safeAsync_retry_invocation_bound { maxRetries := 3, retryDelay := 1000 }
      emptyHandlerState alwaysFailOp none).1,
   (safeAsync_retry_invocation_bound { maxRetries := 3, retryDelay := 1000 }
      emptyHandlerState alwaysFailOp none).2
      (fun _ => ⟨{ message := "boom", code := "TEST_ERROR" }, rfl⟩)⟩

/-- C2: for every operation wrapped by safeAsync with strategy FALLBACK and a
supplied fallback value, if the operation throws then no error propagates and
the returned value equals the supplied fallback; if the operation succeeds,
its result is returned. -/
theorem safeAsync_fallback_spec (cfg : ErrorHandlerConfig)
    (st : HandlerState) (op : Nat → Except PluginError α) (v : α) :
    (∀ e, op 0 = Except.error e →
      (safeAsync cfg st op (some v) ErrorStrategy.fallback).1 =
        Except.ok (some v)) ∧
    (∀ a, op 0 = Except.ok a →
      (safeAsync cfg st op (some v) ErrorStrategy.fallback).1 =
        Except.ok (some a)) := by
  constructor
  · intro e he
    unfold safeAsync
    rw [he]
  · intro a ha
    unfold safeAsync
    rw [ha]

/-- An operation that fails on every attempt, for the C2 witness. -/
def failingOp : Nat → Except PluginError Nat :=
  fun _ => Except.error { message := "nope", code := "FAIL" }

/-- An operation that succeeds immediately with 5, for the C2 witness. -/
def succeedingOp : Nat → Except PluginError Nat :=
  fun _ => Except.ok 5

/-- Witness for C2: a throwing operation yields the fallback 7, a
succeeding operation yields its own result 5. -/
theorem safeAsync_fallback_spec_witness :
    (safeAsync { maxRetries := 3, retryDelay := 1000 } emptyHandlerState
        failingOp (some 7) ErrorStrategy.fallback).1 = Except.ok (some 7) ∧
    (safeAsync { maxRetries := 3, retryDelay := 1000 } emptyHandlerState
        succeedingOp (some 7) ErrorStrategy.fallback).1 = Except.ok (some 5) :=
  ⟨(safeAsync_fallback_spec { maxRetries := 3, retryDelay := 1000 }
      emptyHandlerState failingOp 7).1
      { message := "nope", code := "FAIL" } rfl,
   (safeAsync_fallback_spec { maxRetries := 3, retryDelay := 1000 }
      emptyHandlerState succeedingOp 7).2 5 rfl⟩

/-- C3: for every value and ordered rule list headed by R1, if R1 returns a
violation string then validate raises a ValidationError carrying exactly R1
message and the given field name, regardless of the outcome of every later
rule. -/
theorem validate_first_failing_rule_wins (v : α) (r1 : α → Option String)
    (rest : List (α → Option String)) (fieldName msg : String)
    (h : r1 v = some msg) :
    validate v (r1 :: rest) fieldName =
      Except.error { field := fieldName, message := msg } := by
  unfold validate
  rw [h]

/-- First rule used by the C3 witness: rejects non-positive numbers. -/
def ruleR1 : Int → Option String :=
  fun n => if n ≤ 0 then some "must be positive" else none

/-- Second rule used by the C3 witness: also fails on the witness input,
with a different message. -/
def ruleR2 : Int → Option String :=
  fun n => if n ≤ 10 then some "must be above ten" else none

/-- Witness for C3: both rules fail at 0, yet the reported error carries the
message of R1 and the field name, not the message of R2. -/
theorem validate_first_failing_rule_wins_witness :
    validate (0 : Int) [ruleR1, ruleR2] "amount" =
      Except.error { field := "amount", message := "must be positive" } :=
  validate_first_failing_rule_wins 0 ruleR1 [ruleR2] "amount"
    "must be positive" (by decide)

/-- The operation of the C4 scenario: fails on the first two invocations
with code TEST_ERROR, succeeds with 42 on the third. -/
def failTwiceOp : Nat → Except PluginError Nat :=
  fun i => if i < 2 then Except.error { message := "flaky", code := "TEST_ERROR" }
           else Except.ok 42

/-- C4: a handler configured with maxRetries = 2 and retryDelay = 10 ms, on
an operation that fails twice then succeeds on the third attempt: safeAsync
with strategy RETRY resolves with the success value after 3 invocations, and
getErrorStats afterwards reports 2 recorded failures. -/
theorem safeAsync_retry_scenario :
    (safeAsync { maxRetries := 2, retryDelay := 10 } emptyHandlerState
        failTwiceOp none ErrorStrategy.retry).1 = Except.ok (some 42) ∧
    (safeAsync { maxRetries := 2, retryDelay := 10 } emptyHandlerState
        failTwiceOp none ErrorStrategy.retry).2.1 = 3 ∧
    getErrorStats (safeAsync { maxRetries := 2, retryDelay := 10 }
        emptyHandlerState failTwiceOp none ErrorStrategy.retry).2.2 =
      [("TEST_ERROR", 2)] :=
  ⟨rfl, rfl, rfl⟩

/-- Embedding of src/src/PluginTemplate.tsx initializeServices (lines
167-262): which of the three capability init blocks throws. Each block is
an opaque possibly-throwing operation; absence of a service means the
block does nothing and hence does not throw. -/
structure CapOutcomes where
  themeThrows : Bool
  pageContextThrows : Bool
  settingsThrows : Bool
  deriving DecidableEq, Repr

/-- The theme init block (lines 171-190) as an operation. -/
def themeInitOp (o : CapOutcomes) : Nat → Except PluginError Unit :=
  fun _ =>
    if o.themeThrows then
      Except.error { message := "theme init threw", code := "THEME_ERROR" }
    else Except.ok ()

/-- The page context init block (lines 201-212) as an operation. -/
def pageContextInitOp (o : CapOutcomes) : Nat → Except PluginError Unit :=
  fun _ =>
    if o.pageContextThrows then
      Except.error { message := "page context init threw", code := "PAGE_ERROR" }
    else Except.ok ()

/-- The settings init block (lines 223-257) as an operation. -/
def settingsInitOp (o : CapOutcomes) : Nat → Except PluginError Unit :=
  fun _ =>
    if o.settingsThrows then
      Except.error { message := "settings init threw", code := "SETTINGS_ERROR" }
    else Except.ok ()

/-- The handler configuration built in the PluginTemplate constructor
(lines 48-66): maxRetries 3, retryDelay 1000. -/
def pluginHandlerConfig : ErrorHandlerConfig :=
  { maxRetries := 3, retryDelay := 1000 }

/-- Embedding of initializeServices (PluginTemplate.tsx lines 167-262).
Each capability block is wrapped in safeAsync with strategy FALLBACK and
fallback undefined (none); a rejected wrapper promise would be turned into
a ServiceError by the attached catch for theme and page context blocks.
Returns the overall outcome together with the list of capability blocks
whose initialization code ran, in order. -/
def initializeServices (o : CapOutcomes) :
    Except ServiceError Unit × List String :=
  let s0 := emptyHandlerState
  let r1 := safeAsync pluginHandlerConfig s0 (themeInitOp o) none
    ErrorStrategy.fallback
  match r1.1 with
  | Except.error _ =>
    (Except.error ⟨"Failed to initialize theme service", "theme",
      "THEME_INIT_ERROR"⟩, ["theme"])
  | Except.ok _ =>
    let r2 := safeAsync pluginHandlerConfig r1.2.2 (pageContextInitOp o) none
      ErrorStrategy.fallback
    match r2.1 with
    | Except.error _ =>
      (Except.error ⟨"Failed to initialize page context service",
        "pageContext", "PAGE_CONTEXT_INIT_ERROR"⟩, ["theme", "pageContext"])
    | Except.ok _ =>
      let r3 := safeAsync pluginHandlerConfig r2.2.2 (settingsInitOp o) none
        ErrorStrategy.fallback
      match r3.1 with
      | Except.error _ =>
        (Except.error ⟨"Failed to load settings", "settings",
          "SETTINGS_LOAD_ERROR"⟩, ["theme", "pageContext", "settings"])
      | Except.ok _ => (Except.ok (), ["theme", "pageContext", "settings"])

/-- C7: during initializeServices, a failure in any one capability block is
caught individually (by the FALLBACK wrapper) and does not abort the others:
for every combination of throwing capabilities, all three capability init
blocks run and initializeServices completes without error. -/
theorem initializeServices_fault_isolation (o : CapOutcomes) :
    (initializeServices o).2 = ["theme", "pageContext", "settings"] ∧
    (initializeServices o).1 = Except.ok () := by
  obtain ⟨t, p, s⟩ := o
  cases t <;> cases p <;> cases s <;> exact ⟨rfl, rfl⟩

/-- Embedding of JavaScript values handled by the settings code, with
undefined folded into null. -/
inductive JsVal where
  | null
  | bool (b : Bool)
  | num (n : Int)
  | str (s : String)
  deriving DecidableEq, Repr

/-- JavaScript truthiness on the embedded values: null, false, 0 and the
empty string are falsy. -/
def truthy : JsVal → Bool
  | JsVal.null => false
  | JsVal.bool b => b
  | JsVal.num n => n != 0
  | JsVal.str s => s != ""

/-- The JavaScript expression a or-else b: a when a is truthy, else b. -/
def jsOr (a b : JsVal) : JsVal :=
  if truthy a then a else b

/-- State of the development mock settings service (src/unnamed/part_001
lines 94-109): the mock holds no storage at all. -/
structure MockSettingsState where
  unit : Unit
  deriving DecidableEq, Repr

def mockSettingsInit : MockSettingsState := { unit := () }

/-- Embedding of the mock setSetting (part_001 lines 106-108): it only
logs and stores nothing, leaving the mock state unchanged. -/
def setSetting (st : MockSettingsState) (_id : String) (_value : JsVal) :
    MockSettingsState :=
  st

/-- Embedding of the mock getSetting (part_001 lines 102-105): it only
logs and always resolves with null. -/
def getSetting (_st : MockSettingsState) (_id : String) : JsVal :=
  JsVal.null

/-- C5 counterexample: with the settings capability of the repository (the
development mock), setSetting then getSetting on the same key does not
return the stored value: storing a string yields null back. -/
theorem setSetting_getSetting_roundtrip_fails :
    getSetting (setSetting mockSettingsInit "plugin_template_api_endpoint"
        (JsVal.str "https://example.org")) "plugin_template_api_endpoint" ≠
      JsVal.str "https://example.org" := by
  decide

/-- C5 amended: for every key and value, setSetting followed by getSetting
on the mock settings service returns null (the mock stores nothing), so the
round-trip returns the stored value only when that value is null. -/
theorem setSetting_getSetting_returns_null (st : MockSettingsState)
    (k : String) (v : JsVal) :
    getSetting (setSetting st k v) k = JsVal.null :=
  rfl

/-- State of the development mock theme service (src/unnamed/part_001 lines
61-93): the stored theme and the window event listeners registered by
addThemeChangeListener, each identified by the callback it wraps (callbacks
are identified by numbers). -/
structure MockThemeState where
  storedTheme : Option String
  windowListeners : List Nat
  deriving DecidableEq, Repr

def mockThemeInit : MockThemeState :=
  { storedTheme := none, windowListeners := [] }

/-- Embedding of the mock addThemeChangeListener (part_001 lines 82-88): it
registers a fresh handler wrapping the callback on the window event
mock-theme-change (the extra one-shot setTimeout is not modelled; it only
adds invocations). -/
def addThemeChangeListener (st : MockThemeState) (cb : Nat) : MockThemeState :=
  { st with windowListeners := st.windowListeners ++ [cb] }

/-- Embedding of the mock removeThemeChangeListener (part_001 lines 89-92):
it only logs and removes nothing. -/
def removeThemeChangeListener (st : MockThemeState) (_cb : Nat) :
    MockThemeState :=
  st

/-- Embedding of the mock setTheme (part_001 lines 66-72): stores the theme
and dispatches mock-theme-change, invoking every registered window
listener; returns the new state and the list of callbacks invoked. -/
def setTheme (st : MockThemeState) (theme : String) :
    MockThemeState × List Nat :=
  ({ st with storedTheme := some theme }, st.windowListeners)

/-- C6: evaluation of the code at the failing input: after
addThemeChangeListener then removeThemeChangeListener on the same callback,
a simulated theme change still invokes that callback once, not zero
times. -/
theorem removeThemeChangeListener_listener_still_invoked :
    (setTheme (removeThemeChangeListener
        (addThemeChangeListener mockThemeInit 0) 0) "dark").2.count 0 = 1 := by
  decide

/-- The five settings of SettingsExample (src/unnamed/part_002 lines 9-20),
with field values embedded as JsVal since the load path can place any
stored value into them. -/
structure SettingsValues where
  apiEndpoint : JsVal
  enableNotifications : JsVal
  refreshInterval : JsVal
  maxItems : JsVal
  theme : JsVal
  deriving DecidableEq, Repr

/-- The built-in defaults of SettingsExample (part_002 lines 42-53). -/
def defaultSettings : SettingsValues :=
  { apiEndpoint := JsVal.str "https://api.example.com"
    enableNotifications := JsVal.bool true
    refreshInterval := JsVal.num 30
    maxItems := JsVal.num 50
    theme := JsVal.str "auto" }

/-- Embedding of SettingsExample.loadSettings (part_002 lines 63-111): each
setting is fetched (through getSettingF when the service exposes
getSetting, else through getF) and combined with the current state value by
the JavaScript or-else operator, so a falsy stored value is replaced by the
default held in the current state. -/
def loadSettings (st : SettingsValues) (useGetSetting : Bool)
    (getSettingF getF : String → JsVal) : SettingsValues :=
  let fetch := fun (k : String) =>
    if useGetSetting then getSettingF k else getF k
  { apiEndpoint := jsOr (fetch "plugin_template_api_endpoint") st.apiEndpoint
    enableNotifications :=
      jsOr (fetch "plugin_template_notifications") st.enableNotifications
    refreshInterval :=
      jsOr (fetch "plugin_template_refresh_interval") st.refreshInterval
    maxItems := jsOr (fetch "plugin_template_max_items") st.maxItems
    theme := jsOr (fetch "plugin_template_theme") st.theme }

/-- C9: in SettingsExample.loadSettings, every setting whose stored value is
falsy (false, 0, null or the empty string) is replaced by the default held
in the current state, so a saved enableNotifications false or
refreshInterval 0 is never observed after a reload even when the settings
service returns it. -/
theorem loadSettings_falsy_takes_default (st : SettingsValues)
    (g : String → JsVal) :
    (truthy (g "plugin_template_api_endpoint") = false →
      (loadSettings st true g g).apiEndpoint = st.apiEndpoint) ∧
    (truthy (g "plugin_template_notifications") = false →
      (loadSettings st true g g).enableNotifications =
        st.enableNotifications) ∧
    (truthy (g "plugin_template_refresh_interval") = false →
      (loadSettings st true g g).refreshInterval = st.refreshInterval) ∧
    (truthy (g "plugin_template_max_items") = false →
      (loadSettings st true g g).maxItems = st.maxItems) ∧
    (truthy (g "plugin_template_theme") = false →
      (loadSettings st true g g).theme = st.theme) := by
  refine ⟨fun h => ?_, fun h => ?_, fun h => ?_, fun h => ?_, fun h => ?_⟩ <;>
    simp [loadSettings, jsOr, h]

/-- A stored configuration for the C9 witness: notifications saved as
false, refresh interval saved as 0, everything else absent (null). -/
def storedFalsyConfig : String → JsVal :=
  fun k =>
    if k = "plugin_template_notifications" then JsVal.bool false
    else if k = "plugin_template_refresh_interval" then JsVal.num 0
    else JsVal.null

/-- Witness for C9: reloading over the defaults with notifications stored
as false and refresh interval stored as 0 yields the defaults again. -/
theorem loadSettings_falsy_takes_default_witness :
    (loadSettings defaultSettings true storedFalsyConfig
        storedFalsyConfig).enableNotifications =
      defaultSettings.enableNotifications ∧
    (loadSettings defaultSettings true storedFalsyConfig
        storedFalsyConfig).refreshInterval =
      defaultSettings.refreshInterval :=
  ⟨(loadSettings_falsy_takes_default defaultSettings storedFalsyConfig).2.1
      (by decide),
   (loadSettings_falsy_takes_default
      defaultSettings storedFalsyConfig).2.2.1 (by decide)⟩

/-- The state of the main component (src/src/PluginTemplate.tsx lines 69-77)
together with the instance fields retryCount and maxRetries (lines 41-42).
The data field is kept abstract (the template never fills it). -/
structure ComponentState where
  isLoading : Bool
  error : String
  currentTheme : String
  isInitializing : Bool
  data : Option Unit
  lastError : Option PluginError
  retryAvailable : Bool
  deriving DecidableEq, Repr

structure ComponentModel where
  state : ComponentState
  retryCount : Nat
  maxRetries : Nat
  deriving DecidableEq, Repr

/-- The state set in the constructor (lines 69-77) with retryCount 0 and
maxRetries 3 (lines 41-42). -/
def initialModel : ComponentModel :=
  { state :=
      { isLoading := false
        error := ""
        currentTheme := "light"
        isInitializing := true
        data := none
        lastError := none
        retryAvailable := false }
    retryCount := 0
    maxRetries := 3 }

/-- Embedding of ErrorUtils.getUserMessage as used in handleComponentError;
modelled from the spec as producing a user-presentable message from the
error. -/
def getUserMessage (e : PluginError) : String :=
  e.message

/-- Embedding of handleComponentError (lines 110-128): wraps the error in a
PluginError with code COMPONENT_ERROR and sets the error state, with
retryAvailable gated by retryCount < maxRetries (line 126). -/
def handleComponentError (m : ComponentModel) (errMsg context : String) :
    ComponentModel :=
  let pluginError : PluginError :=
    { message := "Component error in " ++ context ++ ": " ++ errMsg
      code := "COMPONENT_ERROR" }
  { m with state :=
      { m.state with
        error := getUserMessage pluginError
        isInitializing := false
        isLoading := false
        lastError := some pluginError
        retryAvailable := decide (m.retryCount < m.maxRetries) } }

/-- The state update of a successful componentDidMount (lines 89-94,
together with loadInitialData line 298 which clears isLoading). -/
def mountSuccess (s : ComponentState) : ComponentState :=
  { s with
    isLoading := false
    isInitializing := false
    error := ""
    lastError := none
    retryAvailable := false }

/-- Embedding of componentDidMount (lines 84-101): the safeAsync RETRY
wrapper either resolves (none) and the success state is set, or the final
error (some message) reaches the catch and handleComponentError runs. -/
def applyMount (m : ComponentModel) (outcome : Option String) :
    ComponentModel :=
  match outcome with
  | none => { m with state := mountSuccess m.state }
  | some msg => handleComponentError m msg "componentDidMount"

/-- Embedding of handleRetry (lines 133-151): when retryCount has reached
maxRetries it only clears retryAvailable and returns; otherwise it
increments retryCount, sets the loading state and re-runs
componentDidMount. The Bool records whether componentDidMount was
re-run. -/
def handleRetry (m : ComponentModel) (outcome : Option String) :
    ComponentModel × Bool :=
  if m.maxRetries ≤ m.retryCount then
    ({ m with state := { m.state with retryAvailable := false } }, false)
  else
    let m1 :=
      { m with
        retryCount := m.retryCount + 1
        state :=
          { m.state with
            isLoading := true
            error := ""
            lastError := none } }
    (applyMount m1 outcome, true)

/-- Embedding of handleDismissError (lines 156-162). -/
def handleDismissError (m : ComponentModel) : ComponentModel :=
  { m with state :=
      { m.state with error := "", lastError := none, retryAvailable := false } }

/-- Theme change listener effect (lines 180-184). -/
def setCurrentTheme (m : ComponentModel) (t : String) : ComponentModel :=
  { m with state := { m.state with currentTheme := t } }

/-- The reachable component models: the constructor state followed by any
interleaving of mount outcomes, user retries, error dismissals and theme
changes, each handler running to completion atomically on the single
JavaScript thread. -/
inductive ReachableState : ComponentModel → Prop where
  | init : ReachableState initialModel
  | mount (m : ComponentModel) (o : Option String) :
      ReachableState m → ReachableState (applyMount m o)
  | retry (m : ComponentModel) (o : Option String) :
      ReachableState m → ReachableState (handleRetry m o).1
  | dismiss (m : ComponentModel) :
      ReachableState m → ReachableState (handleDismissError m)
  | themeChange (m : ComponentModel) (t : String) :
      ReachableState m → ReachableState (setCurrentTheme m t)

/-- In every reachable model, retryAvailable implies retryCount is below
maxRetries. -/
theorem retryAvailable_implies_below_max (m : ComponentModel)
    (h : ReachableState m) :
    m.state.retryAvailable = true → m.retryCount < m.maxRetries := by
  induction h with
  | init => intro hr; simp [initialModel] at hr
  | mount m o _ _ =>
    cases o with
    | none => intro hr; simp [applyMount, mountSuccess] at hr
    | some msg =>
      intro hr
      simp only [applyMount, handleComponentError] at hr ⊢
      exact of_decide_eq_true hr
  | retry m o _ _ =>
    by_cases hc : m.maxRetries ≤ m.retryCount
    · intro hr
      simp [handleRetry, hc] at hr
    · cases o with
      | none => intro hr; simp [handleRetry, hc, applyMount, mountSuccess] at hr
      | some msg =>
        intro hr
        simp only [handleRetry, hc, if_false, applyMount,
          handleComponentError] at hr ⊢
        exact of_decide_eq_true hr
  | dismiss m _ _ => intro hr; simp [handleDismissError] at hr
  | themeChange m t _ ih =>
    intro hr
    simp only [setCurrentTheme] at hr ⊢
    exact ih hr

/-- C8: in every reachable component state, retryAvailable is true only
while retryCount < maxRetries; and once retryCount has reached maxRetries
the retry action is disabled and terminal: retryAvailable is false, and
handleRetry neither re-runs componentDidMount nor increments
retryCount. -/
theorem retry_gated_by_max_retries (m : ComponentModel)
    (h : ReachableState m) :
    (m.state.retryAvailable = true → m.retryCount < m.maxRetries) ∧
    (m.maxRetries ≤ m.retryCount →
      m.state.retryAvailable = false ∧
      ∀ o, (handleRetry m o).2 = false ∧
        (handleRetry m o).1.retryCount = m.retryCount) := by
  refine ⟨retryAvailable_implies_below_max m h, fun hmax => ⟨?_, fun o => ?_⟩⟩
  · cases hr : m.state.retryAvailable with
    | false => rfl
    | true =>
      exact absurd (retryAvailable_implies_below_max m h hr)
        (Nat.not_lt.mpr hmax)
  · constructor <;> simp [handleRetry, hmax]

/-- Witness for C8 at the initial model, reachable by construction. -/
theorem retry_gated_by_max_retries_witness :
    (initialModel.state.retryAvailable = true →
      initialModel.retryCount < initialModel.maxRetries) ∧
    (initialModel.maxRetries ≤ initialModel.retryCount →
      initialModel.state.retryAvailable = false ∧
      ∀ o, (handleRetry initialModel o).2 = false ∧
        (handleRetry initialModel o).1.retryCount =
          initialModel.retryCount) :=
  retry_gated_by_max_retries initialModel ReachableState.init

/-- C10: when handleRetry runs with retryCount already at or above
maxRetries, the only change is that retryAvailable becomes false:
retryCount is not incremented, componentDidMount is not re-run, and every
other state field is unchanged. -/
theorem handleRetry_at_max_only_disables (m : ComponentModel)
    (o : Option String) (h : m.maxRetries ≤ m.retryCount) :
    handleRetry m o =
      ({ m with state := { m.state with retryAvailable := false } },
        false) := by
  simp [handleRetry, h]

/-- A model that has exhausted its retries, for the C10 witness. -/
def exhaustedModel : ComponentModel :=
  { state :=
      { isLoading := false
        error := "Component error in componentDidMount: boom"
        currentTheme := "light"
        isInitializing := false
        data := none
        lastError := some { message := "boom", code := "COMPONENT_ERROR" }
        retryAvailable := true }
    retryCount := 3
    maxRetries := 3 }

/-- Witness for C10 at a concrete exhausted model. -/
theorem handleRetry_at_max_only_disables_witness :
    handleRetry exhaustedModel none =
      ({ exhaustedModel with
          state := { exhaustedModel.state with retryAvailable := false } },
        false) :=
  handleRetry_at_max_only_disables exhaustedModel none (by decide)
